import Mathlib

/-!
Verification development for the fee-management ledger in `src/main.py`.

The program stores students and payments in a SQLite database and exposes a
handful of operations: `add_student_db` (INSERT OR REPLACE keyed on
`student_id`), `add_payment_db` (INSERT into `payments` whose `receipt_no`
column is an AUTOINCREMENT primary key; the call returns `lastrowid`),
`get_student`, `get_last_payment` (ORDER BY receipt_no DESC LIMIT 1),
`get_total_paid` (SUM of `amount_paid`, with NULL coalesced to 0.0), and
`get_total_due` (total_fee minus total paid, None for an unknown student).
The GUI methods `save_student` and `record_payment_and_receipt` wrap these
with input validation.

We embed the database as an explicit state (`DB`): a list of student rows,
an append-only list of payment rows, and the AUTOINCREMENT counter
(`nextReceipt`, the rowid SQLite will hand out next; SQLite rowids start
at 1 and, with AUTOINCREMENT, strictly exceed every rowid ever assigned).
Monetary amounts (SQLite REAL / Python float) are modelled as exact
rationals `Rat`; dates and payment modes are opaque strings, exactly as the
program treats them.
-/

/-- A row of the `students` table:
`student_id TEXT PRIMARY KEY, name, class, total_fee REAL, photo_path`. -/
structure Student where
  student_id : String
  name : String
  student_class : String
  total_fee : Rat
  photo_path : Option String
deriving Repr, DecidableEq

/-- A row of the `payments` table:
`receipt_no INTEGER PRIMARY KEY AUTOINCREMENT, student_id, amount_paid REAL,
payment_date, mode_of_payment`. -/
structure Payment where
  receipt_no : Nat
  student_id : String
  amount_paid : Rat
  payment_date : String
  mode_of_payment : String
deriving Repr, DecidableEq

/-- The persistent state of `college_fee.db`: the two tables plus the
AUTOINCREMENT state of `payments.receipt_no` (the next rowid to assign). -/
structure DB where
  students : List Student
  payments : List Payment
  nextReceipt : Nat
deriving Repr, DecidableEq

/-- `init_db` (src/main.py:22-45): creates the two empty tables; SQLite
AUTOINCREMENT will assign rowid 1 to the first payment. -/
def init_db : DB :=
  { students := [], payments := [], nextReceipt := 1 }

/-- `get_student` (src/main.py:55-61): `SELECT ... FROM students WHERE
student_id=?`; `student_id` is the primary key, so at most one row. -/
def get_student (student_id : String) (db : DB) : Option Student :=
  db.students.find? (fun st => st.student_id == student_id)

/-- `add_student_db` (src/main.py:47-53): `INSERT OR REPLACE INTO students`.
The whole row keyed by `student_id` is replaced; the `payments` table and
the AUTOINCREMENT counter are untouched. -/
def add_student_db (student_id name student_class : String) (total_fee : Rat)
    (photo_path : Option String) (db : DB) : DB :=
  { db with
    students :=
      ⟨student_id, name, student_class, total_fee, photo_path⟩ ::
        db.students.filter (fun st => st.student_id != student_id) }

/-- `add_payment_db` (src/main.py:63-71): `INSERT INTO payments (student_id,
amount_paid, payment_date, mode_of_payment)`. SQLite assigns the new row the
AUTOINCREMENT rowid and the function returns it (`lastrowid`). -/
def add_payment_db (student_id : String) (amount_paid : Rat)
    (payment_date mode : String) (db : DB) : DB × Nat :=
  ({ db with
      payments :=
        db.payments ++ [⟨db.nextReceipt, student_id, amount_paid, payment_date, mode⟩],
      nextReceipt := db.nextReceipt + 1 },
   db.nextReceipt)

/-- The rows `SELECT ... FROM payments WHERE student_id=?` returns. -/
def paymentsOf (student_id : String) (db : DB) : List Payment :=
  db.payments.filter (fun p => p.student_id == student_id)

/-- The row with the greatest `receipt_no` in a bag of payment rows:
`ORDER BY receipt_no DESC LIMIT 1` (receipt numbers are the primary key,
hence distinct, so the maximum is unambiguous). -/
def maxByReceipt (l : List Payment) : Option Payment :=
  l.foldl
    (fun acc p =>
      match acc with
      | none => some p
      | some q => if q.receipt_no < p.receipt_no then some p else some q)
    none

/-- `get_last_payment` (src/main.py:73-79): `SELECT ... FROM payments WHERE
student_id=? ORDER BY receipt_no DESC LIMIT 1`. -/
def get_last_payment (student_id : String) (db : DB) : Option Payment :=
  maxByReceipt (paymentsOf student_id db)

/-- `get_total_paid` (src/main.py:81-87): `SELECT SUM(amount_paid) FROM
payments WHERE student_id=?`, then `row[0] or 0.0`. SUM over no rows is
NULL, coalesced to 0; a genuine sum of 0 is falsy in Python and is likewise
replaced by 0.0, the same value — so the result is always the exact sum. -/
def get_total_paid (student_id : String) (db : DB) : Rat :=
  ((paymentsOf student_id db).map (fun p => p.amount_paid)).sum

/-- `get_total_due` (src/main.py:89-103): computes `get_total_paid`, then
`SELECT total_fee FROM students WHERE student_id=?`; returns `None` when no
student row exists, else `total_fee - total_paid`. -/
def get_total_due (student_id : String) (db : DB) : Option Rat :=
  let total_paid := get_total_paid student_id db
  match get_student student_id db with
  | none => none
  | some st => some (st.total_fee - total_paid)

/-- The three states a numeric text field can be in when the user presses
the button: empty, non-numeric (Python `float()` raises), or parsed. -/
inductive NumText where
  | empty
  | nonNumeric
  | numeric (v : Rat)
deriving Repr, DecidableEq

/-- `save_student` (src/main.py:296-329), its validation and storage logic:
reject when Student ID, Name or the Total Fee text is empty; reject when the
fee text does not parse as a number; otherwise call `add_student_db`. The
photo-copying step only affects the stored `photo_path` string and is taken
as an input here. Returns the new state and whether a row was stored. -/
def save_student (sid name sclass : String) (fee_text : NumText)
    (photo_dest : Option String) (db : DB) : DB × Bool :=
  if sid == "" || name == "" then (db, false)
  else
    match fee_text with
    | .empty => (db, false)
    | .nonNumeric => (db, false)
    | .numeric total_fee =>
        (add_student_db sid name sclass total_fee photo_dest db, true)

/-- `record_payment_and_receipt` (src/main.py:369-404), its validation and
storage logic: reject when the amount text is empty or non-numeric; compute
`remaining_fee = get_total_due(sid)` and reject when `amt > remaining_fee`;
otherwise insert via `add_payment_db` and return the receipt number. When
`get_total_due` returns `None` (student row missing — unreachable through
the GUI, which only calls this after a successful fetch) the Python
comparison `amt > None` raises a `TypeError` before any insert, so no row is
stored; that branch is modelled as a rejection. -/
def record_payment_and_receipt (sid : String) (amt_text : NumText)
    (payment_date mode : String) (db : DB) : DB × Option Nat :=
  match amt_text with
  | .empty => (db, none)
  | .nonNumeric => (db, none)
  | .numeric amt =>
      match get_total_due sid db with
      | none => (db, none)
      | some remaining_fee =>
          if amt > remaining_fee then (db, none)
          else
            let res := add_payment_db sid amt payment_date mode db
            (res.1, some res.2)

/-- A sequence of payment attempts via `record_payment_and_receipt`
(rejected attempts leave the state unchanged). -/
def recordSeq (db : DB) (reqs : List (String × NumText × String × String)) : DB :=
  match reqs with
  | [] => db
  | (sid, a, d, m) :: rest =>
      recordSeq (record_payment_and_receipt sid a d m db).1 rest

/-- A sequence of unconditional `add_payment_db` calls (possibly interleaved
across students); returns the final state and the receipt numbers in call
order. -/
def runPayments (db : DB) (reqs : List (String × Rat × String × String)) :
    DB × List Nat :=
  match reqs with
  | [] => (db, [])
  | (sid, amt, d, m) :: rest =>
      let res := add_payment_db sid amt d m db
      let rec2 := runPayments res.1 rest
      (rec2.1, res.2 :: rec2.2)

/-- Well-formedness of a database state, maintained by every operation from
`init_db` on: every stored receipt number is below the AUTOINCREMENT
counter, and stored rows appear in strictly increasing receipt order. -/
def WF (db : DB) : Prop :=
  (∀ p ∈ db.payments, p.receipt_no < db.nextReceipt) ∧
    db.payments.Pairwise (fun p q => p.receipt_no < q.receipt_no)

instance (db : DB) : Decidable (WF db) := by
  unfold WF; infer_instance

/-! ## Supporting lemmas -/

lemma wf_init_db : WF init_db := by
  constructor
  · intro p hp; simp [init_db] at hp
  · simp [init_db]

lemma add_payment_db_payments (sid : String) (amt : Rat) (d m : String) (db : DB) :
    (add_payment_db sid amt d m db).1.payments =
      db.payments ++ [⟨db.nextReceipt, sid, amt, d, m⟩] := rfl

lemma add_payment_db_next (sid : String) (amt : Rat) (d m : String) (db : DB) :
    (add_payment_db sid amt d m db).1.nextReceipt = db.nextReceipt + 1 := rfl

lemma wf_add_payment_db (sid : String) (amt : Rat) (d m : String) (db : DB)
    (h : WF db) : WF (add_payment_db sid amt d m db).1 := by
  obtain ⟨hlt, hpw⟩ := h
  constructor
  · intro p hp
    rw [add_payment_db_payments] at hp
    rw [add_payment_db_next]
    rcases List.mem_append.mp hp with h1 | h2
    · exact Nat.lt_succ_of_lt (hlt p h1)
    · simp at h2; subst h2; exact Nat.lt_succ_self _
  · rw [add_payment_db_payments]
    refine List.pairwise_append.mpr ⟨hpw, ?_, ?_⟩
    · simp
    · intro p hp q hq; simp at hq; subst hq; exact hlt p hp

lemma wf_add_student_db (sid name sclass : String) (fee : Rat)
    (photo : Option String) (db : DB) (h : WF db) :
    WF (add_student_db sid name sclass fee photo db) := h

lemma wf_record_payment (sid : String) (a : NumText) (d m : String) (db : DB)
    (h : WF db) : WF (record_payment_and_receipt sid a d m db).1 := by
  cases a with
  | empty => exact h
  | nonNumeric => exact h
  | numeric amt =>
      unfold record_payment_and_receipt
      cases hdue : get_total_due sid db with
      | none => exact h
      | some remaining =>
          by_cases hc : amt > remaining
          · simp [hdue, hc]; exact h
          · simp [hdue, hc]; exact wf_add_payment_db sid amt d m db h

lemma paymentsOf_add_payment_same (sid : String) (amt : Rat) (d m : String)
    (db : DB) :
    paymentsOf sid (add_payment_db sid amt d m db).1 =
      paymentsOf sid db ++ [⟨db.nextReceipt, sid, amt, d, m⟩] := by
  unfold paymentsOf
  rw [add_payment_db_payments, List.filter_append]
  simp

lemma mem_paymentsOf (sid : String) (db : DB) (p : Payment)
    (hp : p ∈ paymentsOf sid db) : p ∈ db.payments :=
  List.mem_of_mem_filter hp

lemma maxByReceipt_foldl_mem (l : List Payment) :
    ∀ (acc q : Option Payment),
      l.foldl
        (fun acc p =>
          match acc with
          | none => some p
          | some q => if q.receipt_no < p.receipt_no then some p else some q)
        acc = q →
      (∃ p ∈ l, q = some p) ∨ q = acc := by
  induction l with
  | nil => intro acc q h; right; exact h.symm
  | cons p rest ih =>
      intro acc q h
      simp only [List.foldl_cons] at h
      rcases ih _ _ h with ⟨r, hr, hq⟩ | hq
      · exact Or.inl ⟨r, List.mem_cons_of_mem _ hr, hq⟩
      · cases acc with
        | none => exact Or.inl ⟨p, List.mem_cons_self _ _, hq⟩
        | some a =>
            by_cases hc : a.receipt_no < p.receipt_no
            · simp [hc] at hq
              exact Or.inl ⟨p, List.mem_cons_self _ _, by rw [hq]⟩
            · simp [hc] at hq
              right; rw [hq]

lemma maxByReceipt_append_gt (l : List Payment) (p : Payment)
    (h : ∀ q ∈ l, q.receipt_no < p.receipt_no) :
    maxByReceipt (l ++ [p]) = some p := by
  unfold maxByReceipt
  rw [List.foldl_append]
  rcases maxByReceipt_foldl_mem l none _ rfl with ⟨r, hr, heq⟩ | heq
  · rw [heq]
    simp only [List.foldl_cons, List.foldl_nil]
    rw [if_pos (h r hr)]
  · rw [heq]
    rfl

lemma runPayments_receipts_ge (reqs : List (String × Rat × String × String)) :
    ∀ (db : DB) (r : Nat), r ∈ (runPayments db reqs).2 → db.nextReceipt ≤ r := by
  induction reqs with
  | nil => intro db r h; simp [runPayments] at h
  | cons req rest ih =>
      intro db r h
      obtain ⟨sid, amt, d, m⟩ := req
      simp only [runPayments, List.mem_cons] at h
      rcases h with h | h
      · subst h; exact Nat.le_refl _
      · have := ih _ r h
        rw [add_payment_db_next] at this
        exact Nat.le_of_succ_le this

lemma runPayments_receipts_pairwise
    (reqs : List (String × Rat × String × String)) :
    ∀ db : DB, ((runPayments db reqs).2).Pairwise (· < ·) := by
  induction reqs with
  | nil => intro db; simp [runPayments]
  | cons req rest ih =>
      intro db
      obtain ⟨sid, amt, d, m⟩ := req
      simp only [runPayments]
      refine List.pairwise_cons.mpr ⟨?_, ih _⟩
      intro r hr
      have := runPayments_receipts_ge rest _ r hr
      rw [add_payment_db_next] at this
      exact Nat.lt_of_succ_le this

lemma runPayments_payments_extends
    (reqs : List (String × Rat × String × String)) :
    ∀ db : DB, ∃ extra : List Payment,
      (runPayments db reqs).1.payments = db.payments ++ extra := by
  induction reqs with
  | nil => intro db; exact ⟨[], by simp [runPayments]⟩
  | cons req rest ih =>
      intro db
      obtain ⟨sid, amt, d, m⟩ := req
      obtain ⟨ex, hex⟩ := ih (add_payment_db sid amt d m db).1
      refine ⟨⟨db.nextReceipt, sid, amt, d, m⟩ :: ex, ?_⟩
      simp only [runPayments]
      rw [hex, add_payment_db_payments, List.append_assoc]
      rfl

/-! ## Concrete example states -/

/-- A store holding one student `S1` with fee 1000 and no payments. -/
def exDB1 : DB :=
  { students := [⟨"S1", "Alice", "BSc", 1000, none⟩],
    payments := [], nextReceipt := 1 }

/-- A store holding one student `Z1` with `total_fee = 0` and no payments. -/
def exDB0 : DB :=
  { students := [⟨"Z1", "Bob", "BA", 0, none⟩],
    payments := [], nextReceipt := 1 }

/-- A store holding student `S1` (fee 1000) with one recorded payment of 100
(receipt 1); the AUTOINCREMENT counter stands at 2. -/
def exDB2 : DB :=
  { students := [⟨"S1", "Alice", "BSc", 1000, none⟩],
    payments := [⟨1, "S1", 100, "2024-01-01", "Cash"⟩], nextReceipt := 2 }

/-- A store with no student rows but an orphan payment row recorded under the
unknown id `G1`. -/
def exDBghost : DB :=
  { students := [],
    payments := [⟨1, "G1", 500, "2024-01-01", "Cash"⟩], nextReceipt := 2 }

/-! ## Claims -/

/-- C1: for every student present in the store, `totalDue(studentId)` equals
that student's `total_fee` minus `totalPaid(studentId)`, after any sequence
of accepted payments (including the empty sequence). -/
theorem c1_total_due_eq_fee_minus_paid (db : DB)
    (reqs : List (String × NumText × String × String)) (sid : String)
    (st : Student) (h : get_student sid (recordSeq db reqs) = some st) :
    get_total_due sid (recordSeq db reqs) =
      some (st.total_fee - get_total_paid sid (recordSeq db reqs)) := by
  simp only [get_total_due, h]

theorem c1_witness :
    get_student "S1"
        (recordSeq exDB1 [("S1", .numeric 400, "2024-01-01", "Cash")]) =
      some ⟨"S1", "Alice", "BSc", 1000, none⟩ ∧
    get_total_due "S1"
        (recordSeq exDB1 [("S1", .numeric 400, "2024-01-01", "Cash")]) =
      some ((1000 : Rat) -
        get_total_paid "S1"
          (recordSeq exDB1 [("S1", .numeric 400, "2024-01-01", "Cash")])) :=
  ⟨by
     simp [recordSeq, record_payment_and_receipt, get_total_due, get_student,
       get_total_paid, paymentsOf, add_payment_db, exDB1]
     norm_num,
   c1_total_due_eq_fee_minus_paid exDB1
     [("S1", .numeric 400, "2024-01-01", "Cash")] "S1"
     ⟨"S1", "Alice", "BSc", 1000, none⟩
     (by
       simp [recordSeq, record_payment_and_receipt, get_total_due, get_student,
         get_total_paid, paymentsOf, add_payment_db, exDB1]
       norm_num)⟩

/-- C2: across any sequence of `appendPayment` (`add_payment_db`) calls, even
interleaved across different students, the assigned receipt numbers are
strictly increasing in call order (hence globally unique), none coincides
with a receipt number already stored, and the previously stored rows are
never mutated (the payments table is only extended). -/
theorem c2_receipts_increasing_unique (db : DB)
    (reqs : List (String × Rat × String × String)) (h : WF db) :
    ((runPayments db reqs).2).Pairwise (· < ·) ∧
      ((runPayments db reqs).2).Nodup ∧
      (∀ r ∈ (runPayments db reqs).2, ∀ p ∈ db.payments, p.receipt_no ≠ r) ∧
      ∃ extra, (runPayments db reqs).1.payments = db.payments ++ extra := by
  refine ⟨runPayments_receipts_pairwise reqs db, ?_, ?_,
    runPayments_payments_extends reqs db⟩
  · exact (runPayments_receipts_pairwise reqs db).imp fun hab => Nat.ne_of_lt hab
  · intro r hr p hp
    exact Nat.ne_of_lt (Nat.lt_of_lt_of_le (h.1 p hp)
      (runPayments_receipts_ge reqs db r hr))

theorem c2_witness :
    WF exDB2 ∧
      (((runPayments exDB2
            [("S1", 200, "2024-02-01", "UPI"),
             ("S2", 50, "2024-02-02", "Cash")]).2).Pairwise (· < ·) ∧
        ((runPayments exDB2
            [("S1", 200, "2024-02-01", "UPI"),
             ("S2", 50, "2024-02-02", "Cash")]).2).Nodup ∧
        (∀ r ∈ (runPayments exDB2
            [("S1", 200, "2024-02-01", "UPI"),
             ("S2", 50, "2024-02-02", "Cash")]).2,
          ∀ p ∈ exDB2.payments, p.receipt_no ≠ r) ∧
        ∃ extra,
          (runPayments exDB2
            [("S1", 200, "2024-02-01", "UPI"),
             ("S2", 50, "2024-02-02", "Cash")]).1.payments =
            exDB2.payments ++ extra) :=
  ⟨by decide,
   c2_receipts_increasing_unique exDB2
     [("S1", 200, "2024-02-01", "UPI"), ("S2", 50, "2024-02-02", "Cash")]
     (by decide)⟩

/-- C3: a payment attempt whose amount strictly exceeds the current
`totalDue` of the (existing) student is rejected: no row is stored, no
receipt number is assigned, and the state is returned unchanged. -/
theorem c3_overpayment_rejected (db : DB) (sid : String) (amt : Rat)
    (d m : String) (due : Rat) (hdue : get_total_due sid db = some due)
    (hgt : amt > due) :
    record_payment_and_receipt sid (.numeric amt) d m db = (db, none) := by
  simp [record_payment_and_receipt, hdue, hgt]

theorem c3_witness :
    get_total_due "S1" exDB1 = some 1000 ∧ (1500 : Rat) > 1000 ∧
      record_payment_and_receipt "S1" (.numeric 1500) "2024-01-05" "Cash"
        exDB1 = (exDB1, none) :=
  ⟨by simp [get_total_due, get_student, get_total_paid, paymentsOf, exDB1],
   by norm_num,
   c3_overpayment_rejected exDB1 "S1" 1500 "2024-01-05" "Cash" 1000
     (by simp [get_total_due, get_student, get_total_paid, paymentsOf, exDB1])
     (by norm_num)⟩

/-- C4, counterexample: the claim says every payment attempt for a
`total_fee = 0` student is rejected with no stored row, whatever the amount.
On the code, an attempt with amount 0 passes the only check
(`amt > remaining_fee`, i.e. `0 > 0`, is false), so a row is stored and
receipt 1 is assigned. -/
theorem c4_counterexample :
    get_student "Z1" exDB0 = some ⟨"Z1", "Bob", "BA", 0, none⟩ ∧
      (record_payment_and_receipt "Z1" (.numeric 0) "2024-01-01" "Cash"
          exDB0).2 = some 1 ∧
      (record_payment_and_receipt "Z1" (.numeric 0) "2024-01-01" "Cash"
          exDB0).1.payments = [⟨1, "Z1", 0, "2024-01-01", "Cash"⟩] := by
  refine ⟨by decide, ?_, ?_⟩ <;>
    simp [record_payment_and_receipt, get_total_due, get_student,
      get_total_paid, paymentsOf, add_payment_db, exDB0]

/-- C4 (amended): a student with `total_fee = 0` and no payments has
`totalDue = 0` immediately, and every payment attempt with a strictly
positive amount is rejected, storing no row and leaving the state unchanged
(attempts with amount ≤ 0 are not rejected, as the counterexample shows). -/
theorem c4_zero_fee_due_zero_and_positive_rejected (db : DB) (sid : String)
    (st : Student) (hst : get_student sid db = some st)
    (hfee : st.total_fee = 0) (hnop : paymentsOf sid db = []) :
    get_total_due sid db = some 0 ∧
      ∀ amt : Rat, 0 < amt → ∀ d m : String,
        record_payment_and_receipt sid (.numeric amt) d m db = (db, none) := by
  have hpaid : get_total_paid sid db = 0 := by
    simp [get_total_paid, hnop]
  have hdue : get_total_due sid db = some 0 := by
    simp [get_total_due, hst, hpaid, hfee]
  refine ⟨hdue, ?_⟩
  intro amt hamt d m
  simp [record_payment_and_receipt, hdue, hamt]

theorem c4_witness :
    get_student "Z1" exDB0 = some ⟨"Z1", "Bob", "BA", 0, none⟩ ∧
      paymentsOf "Z1" exDB0 = [] ∧
      get_total_due "Z1" exDB0 = some 0 ∧
      record_payment_and_receipt "Z1" (.numeric 5) "2024-01-03" "Cash" exDB0 =
        (exDB0, none) := by
  have hst : get_student "Z1" exDB0 = some ⟨"Z1", "Bob", "BA", 0, none⟩ := by
    decide
  have hnop : paymentsOf "Z1" exDB0 = [] := by decide
  have hmain := c4_zero_fee_due_zero_and_positive_rejected exDB0 "Z1"
    ⟨"Z1", "Bob", "BA", 0, none⟩ hst rfl hnop
  exact ⟨hst, hnop, hmain.1, hmain.2 5 (by norm_num) "2024-01-03" "Cash"⟩

/-- C5, counterexample: the claim says an attempted payment with amount ≤ 0
fails with a `ValidationError` and stores no row. On the code there is no
such check: a payment of −50 for student `S1` (due 1000) passes
`amt > remaining_fee` (false) and is inserted, receiving receipt 1. -/
theorem c5_counterexample :
    (record_payment_and_receipt "S1" (.numeric (-50)) "2024-01-02" "Cash"
        exDB1).2 = some 1 ∧
      (record_payment_and_receipt "S1" (.numeric (-50)) "2024-01-02" "Cash"
          exDB1).1.payments = [⟨1, "S1", -50, "2024-01-02", "Cash"⟩] := by
  constructor <;>
    simp [record_payment_and_receipt, get_total_due, get_student,
      get_total_paid, paymentsOf, add_payment_db, exDB1] <;>
    norm_num

/-- C5 (amended): the code performs no non-positivity validation on the
amount: a payment attempt with amount ≤ 0 is accepted and stored (with a
fresh receipt number) whenever the amount does not exceed the current
`totalDue`; only empty/non-numeric input and overpayment are rejected. -/
theorem c5_nonpositive_amount_not_validated (db : DB) (sid : String)
    (amt : Rat) (d m : String) (due : Rat)
    (hdue : get_total_due sid db = some due) (_hle0 : amt ≤ 0)
    (hle : amt ≤ due) :
    record_payment_and_receipt sid (.numeric amt) d m db =
      ((add_payment_db sid amt d m db).1, some db.nextReceipt) := by
  have hngt : ¬ amt > due := not_lt.mpr hle
  simp [record_payment_and_receipt, hdue, hngt, add_payment_db]

theorem c5_witness :
    get_total_due "S1" exDB1 = some 1000 ∧ (-50 : Rat) ≤ 0 ∧
      (-50 : Rat) ≤ 1000 ∧
      record_payment_and_receipt "S1" (.numeric (-50)) "2024-01-02" "Cash"
          exDB1 =
        ((add_payment_db "S1" (-50) "2024-01-02" "Cash" exDB1).1,
          some exDB1.nextReceipt) :=
  ⟨by simp [get_total_due, get_student, get_total_paid, paymentsOf, exDB1],
   by norm_num, by norm_num,
   c5_nonpositive_amount_not_validated exDB1 "S1" (-50) "2024-01-02" "Cash"
     1000
     (by simp [get_total_due, get_student, get_total_paid, paymentsOf, exDB1])
     (by norm_num) (by norm_num)⟩

/-- C6, counterexample: the claim says an upsert with `totalFee < 0` fails
with a `ValidationError` and stores no row. On the code `save_student`
checks only that the required fields are non-empty and that the fee text is
numeric; saving student `S1` with fee −5 succeeds and stores the row. -/
theorem c6_counterexample :
    (save_student "S1" "Alice" "BSc" (.numeric (-5)) none init_db).2 = true ∧
      get_student "S1"
          (save_student "S1" "Alice" "BSc" (.numeric (-5)) none init_db).1 =
        some ⟨"S1", "Alice", "BSc", -5, none⟩ := by
  constructor <;> decide

/-- C6 (amended): `save_student` performs no sign check on the fee: for any
non-empty id and name and any numeric fee value — negative ones included —
the call stores the full student row via `add_student_db` and reports
success; only empty required fields or a non-numeric fee text are
rejected. -/
theorem c6_negative_fee_stored (sid name sclass : String) (fee : Rat)
    (photo : Option String) (db : DB) (hsid : sid ≠ "") (hname : name ≠ "") :
    save_student sid name sclass (.numeric fee) photo db =
      (add_student_db sid name sclass fee photo db, true) ∧
      get_student sid (add_student_db sid name sclass fee photo db) =
        some ⟨sid, name, sclass, fee, photo⟩ := by
  constructor
  · simp [save_student, hsid, hname]
  · simp [get_student, add_student_db]

theorem c6_witness :
    ("S1" : String) ≠ "" ∧ ("Alice" : String) ≠ "" ∧
      (save_student "S1" "Alice" "BSc" (.numeric (-5)) none init_db =
          (add_student_db "S1" "Alice" "BSc" (-5) none init_db, true) ∧
        get_student "S1" (add_student_db "S1" "Alice" "BSc" (-5) none init_db) =
          some ⟨"S1", "Alice", "BSc", -5, none⟩) :=
  ⟨by decide, by decide,
   c6_negative_fee_stored "S1" "Alice" "BSc" (-5) none init_db (by decide)
     (by decide)⟩

/-- C7: `totalDue` on a student id with no student row returns the
distinguished non-numeric result `none` (`NotFound`) — never `some 0` and
never a negative number — regardless of any payment rows recorded under
that id. -/
theorem c7_unknown_student_due_not_found (db : DB) (sid : String)
    (h : get_student sid db = none) : get_total_due sid db = none := by
  simp [get_total_due, h]

theorem c7_witness :
    get_student "G1" exDBghost = none ∧ get_total_due "G1" exDBghost = none :=
  ⟨by decide, c7_unknown_student_due_not_found exDBghost "G1" (by decide)⟩

/-- C8: `totalPaid` on a student id with zero recorded payment rows returns
the number 0, never `NotFound` (the function yields a number for every id,
whether or not a student row exists — it never consults the students
table). -/
theorem c8_total_paid_zero_when_no_payments (db : DB) (sid : String)
    (h : paymentsOf sid db = []) : get_total_paid sid db = 0 := by
  simp [get_total_paid, h]

theorem c8_witness :
    paymentsOf "S1" exDB1 = [] ∧ get_total_paid "S1" exDB1 = 0 :=
  ⟨by decide, c8_total_paid_zero_when_no_payments exDB1 "S1" (by decide)⟩

/-- C9: re-upserting an existing student id replaces every field of the
stored row (name, class, total fee, photo reference) with the new values,
while the payments table — the payment rows of that student and of every
other student — is left completely unchanged. -/
theorem c9_upsert_replaces_and_preserves_payments (db : DB) (sid : String)
    (old : Student) (_hold : get_student sid db = some old)
    (name sclass : String) (fee : Rat) (photo : Option String) :
    get_student sid (add_student_db sid name sclass fee photo db) =
      some ⟨sid, name, sclass, fee, photo⟩ ∧
      (add_student_db sid name sclass fee photo db).payments = db.payments :=
  ⟨by simp [get_student, add_student_db], rfl⟩

theorem c9_witness :
    get_student "S1" exDB2 = some ⟨"S1", "Alice", "BSc", 1000, none⟩ ∧
      (get_student "S1"
          (add_student_db "S1" "Alicia" "MSc" 1200 (some "p.png") exDB2) =
        some ⟨"S1", "Alicia", "MSc", 1200, some "p.png"⟩ ∧
        (add_student_db "S1" "Alicia" "MSc" 1200 (some "p.png")
            exDB2).payments = exDB2.payments) :=
  ⟨by decide,
   c9_upsert_replaces_and_preserves_payments exDB2 "S1"
     ⟨"S1", "Alice", "BSc", 1000, none⟩ (by decide) "Alicia" "MSc" 1200
     (some "p.png")⟩

/-- C10: immediately after `add_payment_db` returns a receipt number, that
number is `db.nextReceipt`, `get_last_payment` on that student returns
exactly the payment just appended (receipt number, student id, amount, date
and mode), and the appended payment carries the greatest receipt number
among that student's payments. -/
theorem c10_last_payment_is_appended (db : DB) (sid : String) (amt : Rat)
    (d m : String) (h : WF db) :
    (add_payment_db sid amt d m db).2 = db.nextReceipt ∧
      get_last_payment sid (add_payment_db sid amt d m db).1 =
        some ⟨db.nextReceipt, sid, amt, d, m⟩ ∧
      ∀ p ∈ paymentsOf sid (add_payment_db sid amt d m db).1,
        p.receipt_no ≤ db.nextReceipt := by
  have hlt : ∀ q ∈ paymentsOf sid db, q.receipt_no < db.nextReceipt :=
    fun q hq => h.1 q (mem_paymentsOf sid db q hq)
  refine ⟨rfl, ?_, ?_⟩
  · unfold get_last_payment
    rw [paymentsOf_add_payment_same]
    exact maxByReceipt_append_gt _ _ hlt
  · intro p hp
    rw [paymentsOf_add_payment_same] at hp
    rcases List.mem_append.mp hp with h1 | h2
    · exact Nat.le_of_lt (hlt p h1)
    · simp at h2; subst h2; exact Nat.le_refl _

theorem c10_witness :
    WF exDB2 ∧
      ((add_payment_db "S1" 200 "2024-02-01" "UPI" exDB2).2 =
          exDB2.nextReceipt ∧
        get_last_payment "S1"
            (add_payment_db "S1" 200 "2024-02-01" "UPI" exDB2).1 =
          some ⟨exDB2.nextReceipt, "S1", 200, "2024-02-01", "UPI"⟩ ∧
        ∀ p ∈ paymentsOf "S1"
            (add_payment_db "S1" 200 "2024-02-01" "UPI" exDB2).1,
          p.receipt_no ≤ exDB2.nextReceipt) :=
  ⟨by decide,
   c10_last_payment_is_appended exDB2 "S1" 200 "2024-02-01" "UPI"
     (by decide)⟩
